import Mathlib

/-!
Verification development for the realtime audio/tool-call session client
(IELTS speaking-practice demo).  The definitions below are a shallow
embedding of the TypeScript sources:

* `onToolCall`, `logsFor`, `toolResponseOf`, `debounceDelayMs`,
  `handledToolNames`, the tool declaration schemas — from
  `src/components/altair/Altair.tsx` (the `useAltairAI` hook).
* `trayRecorderState`, `onData`, `trayTickOutbound` — from
  `src/components/audio-control-tray/AudioControlTray.tsx`.
* `volumeIndicatorWidth` — from the volume-indicator style computation in
  `AudioControlTray.tsx` and `ChatLayout`.
* `greetingDelayMs`, `sendGreeting`, `greetingAttemptTime` — from the
  greeting effect in `Altair.tsx`.
* The playback engine and the session client implementation are not part
  of the given sources; the definitions for them are modelled from the
  design document and marked as such in their doc comments.

Tool-call arguments are modelled as string-valued JSON objects
(association lists), which matches every declared parameter schema in the
source: every declared property has type STRING.
-/

/-- One function call of an inbound `tool_call` batch:
`{id, name, args}` with string-valued args. -/
structure FunctionCall where
  id : String
  name : String
  args : List (String × String)
  deriving Repr, DecidableEq

/-- The inbound `LiveServerToolCall` message: its `functionCalls` field may
be absent (`none`) or a (possibly empty) list of calls. -/
structure ToolCallMsg where
  functionCalls : Option (List FunctionCall)
  deriving Repr, DecidableEq

/-- One entry of the outbound `tool_response`: the source builds
`{response: {output: {success: ...}}, id, name}`; `success` models the
nested `response.output.success` flag. -/
structure FunctionResponse where
  id : String
  name : String
  success : Bool
  deriving Repr, DecidableEq

/-- A `sendToolResponse` call scheduled via `setTimeout(…, delayMs)`. -/
structure ScheduledSend where
  delayMs : Nat
  functionResponses : List FunctionResponse
  deriving Repr, DecidableEq

/-- Console-log output of the tool-call handler, one constructor per
`console.log` site in `useAltairAI`'s `onToolCall`. -/
inductive LogEntry where
  /-- `"[ALTAIR] Received tool calls:", names` -/
  | receivedToolCalls (names : List String)
  /-- `AI SPEECH [type?.toUpperCase()]:, speech` -/
  | aiSpeech (ty : Option String) (speech : Option String)
  /-- `QUESTION START:, question` -/
  | questionStart (q : Option String)
  /-- `Part:, part` -/
  | questionPart (p : String)
  /-- `QUESTION END:, question` -/
  | questionEnd (q : Option String)
  /-- `AI type?.toUpperCase():, message` -/
  | aiResponse (ty : Option String) (msg : Option String)
  deriving Repr, DecidableEq

/-- The per-call branch of `onToolCall`'s `forEach`: which console lines a
single call produces.  `args.part` is only printed when truthy (a
non-empty string); `args.type?.toUpperCase()` is modelled by mapping
`String.toUpper` over the optional lookup. -/
def logsFor (fc : FunctionCall) : List LogEntry :=
  if fc.name = "log_ai_speech" then
    [.aiSpeech ((fc.args.lookup "type").map String.toUpper) (fc.args.lookup "speech")]
  else if fc.name = "log_question_start" then
    .questionStart (fc.args.lookup "question") ::
      (match fc.args.lookup "part" with
        | some p => if p ≠ "" then [.questionPart p] else []
        | none => [])
  else if fc.name = "log_question_end" then
    [.questionEnd (fc.args.lookup "question")]
  else if fc.name = "log_ai_response" then
    [.aiResponse ((fc.args.lookup "type").map String.toUpper) (fc.args.lookup "message")]
  else
    []

/-- The tool names the `forEach` in `onToolCall` has a branch for. -/
def handledToolNames : List String :=
  ["log_ai_speech", "log_question_start", "log_question_end", "log_ai_response"]

/-- The response entry built for each call:
`{response: {output: {success: true}}, id: fc.id, name: fc.name}`. -/
def toolResponseOf (fc : FunctionCall) : FunctionResponse :=
  ⟨fc.id, fc.name, true⟩

/-- The `setTimeout` delay (ms) before `sendToolResponse` is called. -/
def debounceDelayMs : Nat := 200

/-- The `onToolCall` handler of `useAltairAI` (Altair.tsx): an absent
`functionCalls` field returns early; otherwise the batch is logged, each
call is run through the logging branches, and — when the batch is
non-empty — a single `sendToolResponse` carrying one success entry per
call is scheduled after `debounceDelayMs`. -/
def onToolCall (msg : ToolCallMsg) : List LogEntry × Option ScheduledSend :=
  match msg.functionCalls with
  | none => ([], none)
  | some calls =>
    (.receivedToolCalls (calls.map (·.name)) :: (calls.map logsFor).flatten,
     if calls.length ≠ 0 then
       some ⟨debounceDelayMs, calls.map toolResponseOf⟩
     else
       none)

/-- A declared parameter schema: the names of the declared (STRING-typed)
properties and the required ones, as in the `FunctionDeclaration`s of
Altair.tsx. -/
structure ParamSchema where
  properties : List String
  required : List String
  deriving Repr, DecidableEq

/-- The parameter schema of the declared tool with the given name, from
the `declaration` and `conversationTools` constants of Altair.tsx. -/
def declaredSchemaFor (name : String) : Option ParamSchema :=
  if name = "render_altair" then some ⟨["json_graph"], ["json_graph"]⟩
  else if name = "log_ai_speech" then some ⟨["speech", "type"], ["speech", "type"]⟩
  else if name = "log_question_start" then some ⟨["question", "part"], ["question"]⟩
  else if name = "log_question_end" then some ⟨["question"], ["question"]⟩
  else if name = "log_ai_response" then some ⟨["message", "type"], ["message", "type"]⟩
  else none

/-- Schema conformance of a call's arguments: every required property is
present.  (All declared properties are STRING-typed and the argument
model is string-valued, so presence of the required keys is the whole
check.) -/
def validArgs (s : ParamSchema) (args : List (String × String)) : Bool :=
  s.required.all (fun k => (args.lookup k).isSome)

/-- The session connection lifecycle phases of the design document's
ConnectionState. -/
inductive ConnectionState where
  | disconnected
  | connecting
  | connected
  | closing
  | error (reason : String)
  deriving Repr, DecidableEq

/-- An outbound realtime audio chunk, as built by the tray's `onData`
callback for `client.sendRealtimeInput`. -/
structure OutboundAudio where
  mimeType : String
  data : String
  deriving Repr, DecidableEq

/-- Whether the tray's recorder effect leaves the `AudioRecorder`
running. -/
inductive RecorderState where
  | recording
  | stopped
  deriving Repr, DecidableEq

/-- The recorder effect of `AudioControlTray`: when `connected && !muted`
the recorder is started (with the data and volume listeners attached);
in every other case `audioRecorder.stop()` is called. -/
def trayRecorderState (connected muted : Bool) : RecorderState :=
  if connected && !muted then .recording else .stopped

/-- Events an `AudioRecorder` emits on one capture tick. -/
inductive CaptureEvent where
  | data (frame : String)
  | volume (v : ℚ)
  deriving Repr, DecidableEq

/-- Modelled from the spec: the capture engine's per-tick emission (the
`AudioRecorder` implementation in `lib/audio-recorder` is not among the
given sources).  A running recorder emits the encoded frame plus a volume
event each tick; a stopped recorder holds no device and emits nothing. -/
def captureTick (rs : RecorderState) (frame : String) (vol : ℚ) : List CaptureEvent :=
  match rs with
  | .recording => [.data frame, .volume vol]
  | .stopped => []

/-- The tray's `onData` callback: wraps a base64 frame for
`client.sendRealtimeInput` with the fixed PCM mime type. -/
def onData (frame : String) : OutboundAudio :=
  ⟨"audio/pcm;rate=16000", frame⟩

/-- Audio chunks the tray hands to the client on one capture tick, given
the connection and mute flags: the recorder state is decided by the tray
effect and only `data` events reach `onData`. -/
def trayTickOutbound (connected muted : Bool) (frame : String) (vol : ℚ) :
    List OutboundAudio :=
  (captureTick (trayRecorderState connected muted) frame vol).filterMap
    (fun e =>
      match e with
      | .data f => some (onData f)
      | .volume _ => none)

/-- Modelled from the spec: `SessionClient.sendAudio` is valid only when
Connected; invoked in any other state it fails with an InvalidState
condition and transmits nothing (the session client implementation is not
among the given sources). -/
def sendAudio (st : ConnectionState) (frame : String) : Except String OutboundAudio :=
  match st with
  | .connected => .ok (onData frame)
  | _ => .error "InvalidState"

/-- An audio frame of the playback path: a PCM16 sample block with its
rate tag and sequence number. -/
structure AudioFrame where
  samples : List Int
  sampleRate : Nat
  seq : Nat
  deriving Repr, DecidableEq

/-- The playback engine's buffer of frames awaiting the playback clock. -/
structure PlaybackState where
  queue : List AudioFrame
  deriving Repr, DecidableEq

/-- Events driving the playback engine. -/
inductive PlaybackEvent where
  | enqueue (f : AudioFrame)
  | interrupted
  | tick
  deriving Repr, DecidableEq

/-- Modelled from the spec: the playback engine (no playback code is
among the given sources).  `enqueue` appends to the buffer; an
`interrupted` message flushes the whole queue immediately; a playback
tick drains one frame, or plays silence (no output frame) on underrun. -/
def playbackStep (s : PlaybackState) (e : PlaybackEvent) :
    PlaybackState × Option AudioFrame :=
  match e with
  | .enqueue f => (⟨s.queue ++ [f]⟩, none)
  | .interrupted => (⟨[]⟩, none)
  | .tick =>
    match s.queue with
    | [] => (s, none)
    | f :: rest => (⟨rest⟩, some f)

/-- Run the playback engine over a sequence of events. -/
def runPlayback (s : PlaybackState) (es : List PlaybackEvent) : PlaybackState :=
  es.foldl (fun st e => (playbackStep st e).1) s

/-- The `setTimeout` delay (ms) the greeting effect of `useAltairAI`
awaits after the `connected` flag becomes true. -/
def greetingDelayMs : Nat := 2000

/-- A text part sent through `client.send`. -/
structure TextPart where
  text : String
  deriving Repr, DecidableEq

/-- The body of `sendGreeting` after its fixed sleep: the greeting text is
sent iff `client?.session` is set; otherwise nothing is sent. -/
def sendGreeting (sessionReady : Bool) : Option TextPart :=
  if sessionReady then
    some ⟨"Hello, I'm ready to begin the IELTS speaking test."⟩
  else
    none

/-- The time (ms) at which the greeting send is attempted, given the time
`t` at which the connection was observed: the effect always awaits the
fixed `greetingDelayMs` sleep first. -/
def greetingAttemptTime (t : Nat) : Nat :=
  t + greetingDelayMs

/-- The volume-indicator width percentage:
`Math.min(Math.max(volume * 100, 5), 100)` from the style computation of
`AudioControlTray` and `ChatLayout`. -/
def volumeIndicatorWidth (volume : ℚ) : ℚ :=
  min (max (volume * 100) 5) 100

/-- The scenario batch of claim C1: a single call with an id, the name
`log_question_start`, and a question argument. -/
def c1Batch : ToolCallMsg :=
  ⟨some [⟨"a", "log_question_start", [("question", "Tell me about your hometown")]⟩]⟩

/-- Whether the handler schedules, for the given message, a response entry
for id `i` whose output is `success := false`. -/
def sendsFailureFor (msg : ToolCallMsg) (i : String) : Bool :=
  match (onToolCall msg).2 with
  | some s => s.functionResponses.any (fun r => r.id == i && r.success == false)
  | none => false

/-- Whether the handler schedules, for the given message, any response
entry for id `i`. -/
def sendsResponseFor (msg : ToolCallMsg) (i : String) : Bool :=
  match (onToolCall msg).2 with
  | some s => s.functionResponses.any (fun r => r.id == i)
  | none => false

/-- C1 counterexample: on the scenario batch the handler does schedule a
response for id "a", but no scheduled entry for "a" carries
`success := false` — the synthetic response is a success, not a failure. -/
theorem unmatchedCall_failureOutput_counterexample :
    sendsResponseFor c1Batch "a" = true ∧ sendsFailureFor c1Batch "a" = false := by
  exact ⟨rfl, rfl⟩

/-- C1 (amended): for every inbound batch containing a call whose name has
no handler branch, a synthetic response for that call's id whose output is
`success := true` is scheduled within the debounce delay, rather than the
call being dropped. -/
theorem unmatchedCall_successResponse (calls : List FunctionCall) (fc : FunctionCall)
    (hmem : fc ∈ calls) (hun : fc.name ∉ handledToolNames) :
    ∃ s, (onToolCall ⟨some calls⟩).2 = some s ∧ s.delayMs = debounceDelayMs ∧
      toolResponseOf fc ∈ s.functionResponses ∧ (toolResponseOf fc).success = true := by
  have hlen : calls.length ≠ 0 := by
    intro h0
    rw [List.length_eq_zero] at h0
    exact (List.ne_nil_of_mem hmem) h0
  refine ⟨⟨debounceDelayMs, calls.map toolResponseOf⟩, ?_, rfl,
    List.mem_map_of_mem _ hmem, rfl⟩
  show (if calls.length ≠ 0 then
      some (⟨debounceDelayMs, calls.map toolResponseOf⟩ : ScheduledSend)
    else none) = _
  rw [if_pos hlen]

/-- C1 witness: a concrete unmatched-name call receives its success
response. -/
theorem unmatchedCall_successResponse_witness :
    ∃ s, (onToolCall ⟨some [⟨"a", "mystery_tool", []⟩]⟩).2 = some s ∧
      s.delayMs = debounceDelayMs ∧
      toolResponseOf ⟨"a", "mystery_tool", []⟩ ∈ s.functionResponses ∧
      (toolResponseOf ⟨"a", "mystery_tool", []⟩).success = true :=
  unmatchedCall_successResponse [⟨"a", "mystery_tool", []⟩] ⟨"a", "mystery_tool", []⟩
    (by simp) (by decide)

/-- C2 counterexample: with the tray connected and unmuted the recorder is
running, but setting mute stops the recorder entirely — the device is
released and a capture tick emits no events at all, in particular no
volume event. -/
theorem muteKeepsMetering_counterexample :
    trayRecorderState true false = RecorderState.recording ∧
    trayRecorderState true true = RecorderState.stopped ∧
    captureTick (trayRecorderState true true) "frame" 0 = [] := by
  exact ⟨rfl, rfl, rfl⟩

/-- C2 (amended): setting mute stops the tray's recorder outright —
regardless of the connection flag the recorder is stopped while muted, the
device is released, and capture ticks emit neither data nor volume
events. -/
theorem muteStopsCapture (connected : Bool) (frame : String) (vol : ℚ) :
    trayRecorderState connected true = RecorderState.stopped ∧
    captureTick (trayRecorderState connected true) frame vol = [] := by
  cases connected <;> exact ⟨rfl, rfl⟩

/-- C3: for an inbound batch whose ids are pairwise distinct, every call
receives exactly one response entry — carrying its id and name — in the
single flush scheduled at the debounce delay, whether or not its name has
a handler branch; no id is answered twice. -/
theorem eachCallId_exactlyOneResponse (calls : List FunctionCall) (fc : FunctionCall)
    (hmem : fc ∈ calls) (hids : (calls.map FunctionCall.id).Nodup) :
    ∃ s, (onToolCall ⟨some calls⟩).2 = some s ∧ s.delayMs = debounceDelayMs ∧
      toolResponseOf fc ∈ s.functionResponses ∧
      s.functionResponses.countP (fun r => r.id == fc.id) = 1 := by
  have hlen : calls.length ≠ 0 := by
    intro h0
    rw [List.length_eq_zero] at h0
    exact (List.ne_nil_of_mem hmem) h0
  refine ⟨⟨debounceDelayMs, calls.map toolResponseOf⟩, ?_, rfl,
    List.mem_map_of_mem _ hmem, ?_⟩
  · show (if calls.length ≠ 0 then
        some (⟨debounceDelayMs, calls.map toolResponseOf⟩ : ScheduledSend)
      else none) = _
    rw [if_pos hlen]
  · have hmemid : fc.id ∈ calls.map FunctionCall.id := List.mem_map_of_mem _ hmem
    have hcount : (calls.map FunctionCall.id).count fc.id = 1 :=
      List.count_eq_one_of_mem hids hmemid
    calc (calls.map toolResponseOf).countP (fun r => r.id == fc.id)
        = calls.countP (fun c => c.id == fc.id) := List.countP_map _ _ _
      _ = (calls.map FunctionCall.id).countP (fun i => i == fc.id) :=
          (List.countP_map (fun i => i == fc.id) FunctionCall.id calls).symm
      _ = (calls.map FunctionCall.id).count fc.id :=
          (List.count_eq_countP _ _).symm
      _ = 1 := hcount

/-- C3 witness: a concrete two-call batch with distinct ids; the second
call (an unmatched name) receives exactly one response entry. -/
theorem eachCallId_exactlyOneResponse_witness :
    ∃ s, (onToolCall ⟨some [⟨"a", "log_question_end", [("question", "q")]⟩,
        ⟨"b", "mystery_tool", []⟩]⟩).2 = some s ∧
      s.delayMs = debounceDelayMs ∧
      toolResponseOf ⟨"b", "mystery_tool", []⟩ ∈ s.functionResponses ∧
      s.functionResponses.countP
        (fun r => r.id == (FunctionCall.mk "b" "mystery_tool" []).id) = 1 :=
  eachCallId_exactlyOneResponse
    [⟨"a", "log_question_end", [("question", "q")]⟩, ⟨"b", "mystery_tool", []⟩]
    ⟨"b", "mystery_tool", []⟩ (by simp) (by decide)

/-- C4: for every non-empty inbound batch, the responses for all calls are
collected into one list and flushed together in a single scheduled
`sendToolResponse`, issued after the 200 ms debounce delay. -/
theorem batchResponses_singleFlush (calls : List FunctionCall) (h : calls ≠ []) :
    (onToolCall ⟨some calls⟩).2 =
      some ⟨debounceDelayMs, calls.map toolResponseOf⟩ ∧
    debounceDelayMs = 200 := by
  have hlen : calls.length ≠ 0 := by
    intro h0
    rw [List.length_eq_zero] at h0
    exact h h0
  constructor
  · show (if calls.length ≠ 0 then
        some (⟨debounceDelayMs, calls.map toolResponseOf⟩ : ScheduledSend)
      else none) = _
    rw [if_pos hlen]
  · rfl

/-- C4 witness: the single flush on a concrete one-call batch. -/
theorem batchResponses_singleFlush_witness :
    (onToolCall ⟨some [⟨"a", "log_question_end", [("question", "q")]⟩]⟩).2 =
      some ⟨debounceDelayMs,
        [⟨"a", "log_question_end", [("question", "q")]⟩].map toolResponseOf⟩ ∧
    debounceDelayMs = 200 :=
  batchResponses_singleFlush [⟨"a", "log_question_end", [("question", "q")]⟩]
    (by simp)

/-- C5: while the tray is not connected no audio chunk is handed to the
client on any capture tick, and (session client modelled from the spec)
`sendAudio` invoked in any state other than Connected fails with an
InvalidState condition and transmits nothing. -/
theorem audioOnlyWhenConnected (muted : Bool) (frame : String) (vol : ℚ)
    (st : ConnectionState) (h : st ≠ ConnectionState.connected) :
    trayTickOutbound false muted frame vol = [] ∧
    sendAudio st frame = Except.error "InvalidState" := by
  constructor
  · cases muted <;> rfl
  · cases st with
    | connected => exact absurd rfl h
    | disconnected => rfl
    | connecting => rfl
    | closing => rfl
    | error r => rfl

/-- C5 witness: concretely, while Disconnected nothing is transmitted. -/
theorem audioOnlyWhenConnected_witness :
    trayTickOutbound false false "frame" 0 = [] ∧
    sendAudio ConnectionState.disconnected "frame" = Except.error "InvalidState" :=
  audioOnlyWhenConnected false "frame" 0 ConnectionState.disconnected (by decide)

/-- The C6 counterexample call: `log_question_start` with no arguments at
all, so the required "question" property is missing. -/
def c6Call : FunctionCall := ⟨"a", "log_question_start", []⟩

/-- C6 counterexample: the call's arguments fail its declared schema (the
required "question" is absent), yet the handler dispatches it anyway — the
logging branch runs on the missing argument and a success response is
scheduled; nothing is rejected as a ProtocolError. -/
theorem argsNotValidated_counterexample :
    declaredSchemaFor c6Call.name = some ⟨["question", "part"], ["question"]⟩ ∧
    validArgs ⟨["question", "part"], ["question"]⟩ c6Call.args = false ∧
    onToolCall ⟨some [c6Call]⟩ =
      ([.receivedToolCalls ["log_question_start"], .questionStart none],
       some ⟨200, [⟨"a", "log_question_start", true⟩]⟩) := by
  exact ⟨rfl, rfl, rfl⟩

/-- C6 (amended): arguments are not validated at the dispatch boundary —
every call of an inbound batch, even one whose arguments fail its tool's
declared schema, is dispatched and acknowledged with a success response. -/
theorem invalidArgs_stillDispatched (calls : List FunctionCall) (fc : FunctionCall)
    (hmem : fc ∈ calls) (sch : ParamSchema)
    (hsch : declaredSchemaFor fc.name = some sch)
    (hbad : validArgs sch fc.args = false) :
    ∃ s, (onToolCall ⟨some calls⟩).2 = some s ∧
      toolResponseOf fc ∈ s.functionResponses ∧
      (toolResponseOf fc).success = true := by
  have hlen : calls.length ≠ 0 := by
    intro h0
    rw [List.length_eq_zero] at h0
    exact (List.ne_nil_of_mem hmem) h0
  refine ⟨⟨debounceDelayMs, calls.map toolResponseOf⟩, ?_,
    List.mem_map_of_mem _ hmem, rfl⟩
  show (if calls.length ≠ 0 then
      some (⟨debounceDelayMs, calls.map toolResponseOf⟩ : ScheduledSend)
    else none) = _
  rw [if_pos hlen]

/-- C6 witness: the schema-invalid concrete call is still dispatched with
a success acknowledgment. -/
theorem invalidArgs_stillDispatched_witness :
    ∃ s, (onToolCall ⟨some [c6Call]⟩).2 = some s ∧
      toolResponseOf c6Call ∈ s.functionResponses ∧
      (toolResponseOf c6Call).success = true :=
  invalidArgs_stillDispatched [c6Call] c6Call (by simp)
    ⟨["question", "part"], ["question"]⟩ (by decide) (by decide)

/-- C7: after any event history, an `interrupted` signal flushes the
playback queue immediately — the queue length is 0 before the next
playback tick can run. -/
theorem interruptedFlushesQueue (s0 : PlaybackState) (es : List PlaybackEvent) :
    (runPlayback s0 (es ++ [PlaybackEvent.interrupted])).queue.length = 0 := by
  rw [runPlayback, List.foldl_append]
  rfl

/-- C8 counterexample: the greeting send is triggered only after the fixed
2000 ms sleep — at connect time 0 the attempt happens at time 2000, not at
time 0, so a fixed timing constant elapses between Connected and the
greeting. -/
theorem greetingFixedSleep_counterexample :
    greetingAttemptTime 0 = 2000 ∧ greetingAttemptTime 0 ≠ 0 ∧
    greetingDelayMs = 2000 := by
  exact ⟨rfl, by decide, rfl⟩

/-- C8 (amended): the greeting is triggered by a fixed 2000 ms sleep after
the connected flag is observed — not by a ready event — and after the sleep
it is sent only if the session object is present. -/
theorem greetingAfterFixedSleep (t : Nat) :
    greetingAttemptTime t = t + 2000 ∧
    sendGreeting true = some ⟨"Hello, I'm ready to begin the IELTS speaking test."⟩ ∧
    sendGreeting false = none :=
  ⟨rfl, rfl, rfl⟩

/-- C9 counterexample: an inbound message whose `functionCalls` is the
empty list is not silently ignored — the handler still emits the
batch-received log line (while scheduling no tool_response). -/
theorem emptyBatchStillLogs_counterexample :
    (onToolCall ⟨some []⟩).1 = [LogEntry.receivedToolCalls []] ∧
    (onToolCall ⟨some []⟩).1 ≠ [] ∧
    (onToolCall ⟨some []⟩).2 = none := by
  exact ⟨rfl, by decide, rfl⟩

/-- C9 (amended): a missing `functionCalls` field is silently ignored (no
log entries, no response), while an empty list yields exactly the
batch-received log line, no per-call log entries and no tool_response. -/
theorem emptyOrMissingBatch_noResponse :
    onToolCall ⟨none⟩ = ([], none) ∧
    onToolCall ⟨some []⟩ = ([LogEntry.receivedToolCalls []], none) :=
  ⟨rfl, rfl⟩

/-- C10: for every volume value the rendered indicator width percentage
equals min(max(100·v, 5), 100), hence always lies in [5, 100], even for
values outside the nominal [0,1] range. -/
theorem volumeWidth_clamped (v : ℚ) :
    volumeIndicatorWidth v = min (max (100 * v) 5) 100 ∧
    5 ≤ volumeIndicatorWidth v ∧ volumeIndicatorWidth v ≤ 100 := by
  refine ⟨by rw [volumeIndicatorWidth, mul_comm], ?_, min_le_right _ _⟩
  exact le_min (le_max_right _ _) (by norm_num)

